import Mathlib

/-!
Verification of the match-prediction core of the `python-mongo-motor`
repository: the scoring engine (`src/models/prediction.py`), the match
lifecycle and scoring orchestration (`src/services/match_service.py`,
`src/repositories/match_repository.py`, `src/repositories/prediction_repository.py`),
prediction creation (`src/services/prediction_service.py`) and the analytics
layer (`src/services/analytics_service.py`, `src/models/analytics.py`).

Python integers are modelled as `Nat`/`Int`, timestamps as `Int`
(epoch-style), Python floats as `Rat` with round-half-to-even rounding
(matching CPython `round` and MongoDB `$round` at the values reached here),
MongoDB documents as structures and collections as lists, and the
fallible service layer as explicit state passing: every stateful operation
takes the database value and returns the (possibly unchanged) database
next to an `Except` result, so an error branch returns the database it
received, exactly as a raised Python exception leaves the store untouched.
-/

namespace MongoMotor

/-- Outcome categories, from `PredictionOutcome` in `src/models/prediction.py`. -/
inductive PredictionOutcome where
  | home_win
  | away_win
  | draw
deriving DecidableEq, Repr

/-- The outcome computed by `Prediction.predicted_outcome` and by the
actual-outcome branch of `Prediction.calculate_points`: compare home
versus away goals. -/
def outcomeOf (home away : Nat) : PredictionOutcome :=
  if home > away then .home_win
  else if home < away then .away_win
  else .draw

/-- Source `Prediction.calculate_points` from `src/models/prediction.py` (points
component; the accompanying rationale string is display-only and never
parsed back, so it is not modelled).  Goal differences are computed over
`Int` since Python subtracts unbounded integers. -/
def calculate_points (ph pa ah aa : Nat) : Nat :=
  let actual_outcome := outcomeOf ah aa
  let actual_diff : Int := (ah : Int) - (aa : Int)
  if ph = ah ∧ pa = aa then 3
  else if outcomeOf ph pa = actual_outcome ∧ (ph : Int) - (pa : Int) = actual_diff then 2
  else if outcomeOf ph pa = actual_outcome then 1
  else 0

/-!
### Rounding

CPython `round(x, 2)` and MongoDB `$round: [x, 2]` both round half to
even.  We model the arithmetic over `Rat`.
-/

/-- Round a rational to the nearest integer, ties to even. -/
def roundHalfEven (q : Rat) : Int :=
  if q - ⌊q⌋ < 1/2 then ⌊q⌋
  else if q - ⌊q⌋ > 1/2 then ⌊q⌋ + 1
  else if ⌊q⌋ % 2 = 0 then ⌊q⌋ else ⌊q⌋ + 1

/-- Round to two decimal places, ties to even (Python `round(x, 2)`). -/
def round2 (q : Rat) : Rat := (roundHalfEven (q * 100) : Rat) / 100

/-!
### `UserPredictionStats` derived ratios (`src/models/analytics.py`)
-/

/-- The base counters of `UserPredictionStats` in `src/models/analytics.py`
that feed its computed ratio fields. -/
structure UserStatsCounts where
  scored_predictions : Nat
  exact_scores : Nat
  correct_diffs : Nat
  correct_outcomes : Nat
  incorrect : Nat
  total_points : Nat
deriving DecidableEq, Repr

/-- Source `UserPredictionStats.accuracy_percent`. -/
def accuracy_percent (s : UserStatsCounts) : Rat :=
  if s.scored_predictions = 0 then 0
  else
    let correct := s.exact_scores + s.correct_diffs + s.correct_outcomes
    round2 ((correct : Rat) / (s.scored_predictions : Rat) * 100)

/-- Source `UserPredictionStats.avg_points_per_prediction`. -/
def avg_points_per_prediction (s : UserStatsCounts) : Rat :=
  if s.scored_predictions = 0 then 0
  else round2 ((s.total_points : Rat) / (s.scored_predictions : Rat))

/-- Source `UserPredictionStats.points_efficiency`: the guard in the source tests
`max_points == 0` where `max_points = scored_predictions * 3`. -/
def points_efficiency (s : UserStatsCounts) : Rat :=
  let max_points := s.scored_predictions * 3
  if max_points = 0 then 0
  else round2 ((s.total_points : Rat) / (max_points : Rat) * 100)

/-!
### Trend classification (`UserTrend.trend_direction` in `src/models/analytics.py`)

A daily bucket is represented by its `accuracy_percent` value, the only
field `trend_direction` reads.
-/

/-- Source `UserTrend.trend_direction`: Python `data_points[-3:]` is modelled by
`List.drop (length - 3)` and `data_points[:3]` by `List.take 3`. -/
def trend_direction (l : List Rat) : String :=
  if l.length < 2 then "stable"
  else
    let recent := if 3 ≤ l.length then l.drop (l.length - 3) else l
    let older := l.take 3
    let recent_avg := recent.sum / (recent.length : Rat)
    let older_avg := older.sum / (older.length : Rat)
    let diff := recent_avg - older_avg
    if diff > 5 then "improving"
    else if diff < -5 then "declining"
    else "stable"

/-- Modelled from the spec for comparison with `trend_direction`: "if fewer
than 2 daily buckets exist, classify as stable; otherwise compare the mean
accuracy of the last up-to-3 buckets against the mean accuracy of the first
3 buckets: difference > +5 points improving; < -5 declining; else stable". -/
def specTrendDirection (l : List Rat) : String :=
  if l.length < 2 then "stable"
  else
    let lastUpTo3 := l.drop (l.length - 3)
    let first3 := l.take 3
    let diff := lastUpTo3.sum / (lastUpTo3.length : Rat) - first3.sum / (first3.length : Rat)
    if diff > 5 then "improving"
    else if diff < -5 then "declining"
    else "stable"

/-!
### Streaks (`AnalyticsService._calculate_streaks` in `src/services/analytics_service.py`)

The aggregation pipeline feeds the function a chronologically ordered list
of `1` (prediction with points > 0) and `0` entries.
-/

/-- One iteration of the `for result in results` loop of
`_calculate_streaks`; the accumulator is
`(best_streak, worst_streak, temp_streak, temp_losing)`. -/
def streakStep (acc : Nat × Nat × Nat × Nat) (r : Nat) : Nat × Nat × Nat × Nat :=
  let (best, worst, temp, losing) := acc
  if r = 1 then (max best (temp + 1), worst, temp + 1, 0)
  else (best, max worst (losing + 1), 0, losing + 1)

/-- The trailing loop of `_calculate_streaks`: walk the reversed list and
count while the entry equals 1. -/
def trailingOnes (results : List Nat) : Nat :=
  (results.reverse.takeWhile (fun r => r == 1)).length

/-- Source `AnalyticsService._calculate_streaks`, returning
`(current_streak, best_streak, worst_streak)`. -/
def calculate_streaks (results : List Nat) : Nat × Nat × Nat :=
  if results = [] then (0, 0, 0)
  else
    let s := results.foldl streakStep (0, 0, 0, 0)
    (trailingOnes results, s.1, s.2.1)

/-!
### Data model

Documents of the `matches`, `predictions` and `users` collections, with
the fields the verified operations read or write.  ObjectIds are `Nat`;
MongoDB generates them outside the core, so creation operations receive
the fresh id as a parameter.  `Match.total_predictions` is stored as
`Int`: MongoDB `$inc` has no sign guard of its own, which is exactly what
claim C9 is about.  User counters are likewise `Int` (the service layer
applies deltas of both signs).
-/

/-- Source `MatchStatus` from `src/models/match.py`. -/
inductive MatchStatus where
  | pending
  | live
  | finished
  | cancelled
  | postponed
deriving DecidableEq, Repr

/-- A document of the `matches` collection (`Match` in `src/models/match.py`). -/
structure MatchDoc where
  id : Nat
  home_team : String
  away_team : String
  scheduled_at : Int
  status : MatchStatus
  home_score : Option Nat
  away_score : Option Nat
  started_at : Option Int
  finished_at : Option Int
  cancelled_at : Option Int
  cancellation_reason : Option String
  predictions_locked : Bool
  total_predictions : Int
deriving DecidableEq, Repr

/-- A document of the `predictions` collection (`Prediction` in
`src/models/prediction.py`). -/
structure PredictionDoc where
  id : Nat
  user_id : Nat
  match_id : Nat
  predicted_home_score : Nat
  predicted_away_score : Nat
  is_scored : Bool
  points : Option Nat
  actual_home_score : Option Nat
  actual_away_score : Option Nat
  scored_at : Option Int
deriving DecidableEq, Repr

/-- A document of the `users` collection (`User` in `src/models/user.py`),
restricted to the fields the verified operations touch. -/
structure UserDoc where
  id : Nat
  is_active : Bool
  total_predictions : Int
  total_points : Int
deriving DecidableEq, Repr

/-- The database state: the three collections the verified services use
(the `matches` collection is named `matchesColl` here because `matches` is
a Lean keyword). -/
structure DB where
  matchesColl : List MatchDoc
  predictions : List PredictionDoc
  users : List UserDoc
deriving DecidableEq, Repr

/-- Query `find_one` by id on the `matches` collection. -/
def findMatch (db : DB) (mid : Nat) : Option MatchDoc :=
  db.matchesColl.find? (fun m => m.id == mid)

/-- Query `find_one` by id on the `users` collection. -/
def findUser (db : DB) (uid : Nat) : Option UserDoc :=
  db.users.find? (fun u => u.id == uid)

/-- Query `update_one` by id: rewrite the matching match document. -/
def updateMatch (db : DB) (mid : Nat) (f : MatchDoc → MatchDoc) : DB :=
  { db with matchesColl := db.matchesColl.map (fun m => if m.id == mid then f m else m) }

/-- Query `update_one` by id: rewrite the matching user document. -/
def updateUser (db : DB) (uid : Nat) (f : UserDoc → UserDoc) : DB :=
  { db with users := db.users.map (fun u => if u.id == uid then f u else u) }

/-!
### Match repository document updates (`src/repositories/match_repository.py`)

Each `find_one_and_update` / `update_one` `$set` payload becomes a document
transformer.
-/

/-- The `$set` of `MatchRepository.set_result`. -/
def setResultFn (now : Int) (home away : Nat) (finishedAt : Option Int) (m : MatchDoc) :
    MatchDoc :=
  { m with
    status := .finished
    home_score := some home
    away_score := some away
    finished_at := some (finishedAt.getD now)
    predictions_locked := true }

/-- The `$set` of `MatchRepository.start_match`. -/
def startFn (now : Int) (m : MatchDoc) : MatchDoc :=
  { m with status := .live, started_at := some now, predictions_locked := true }

/-- The `$set` of `MatchRepository.cancel_match`. -/
def cancelFn (now : Int) (reason : Option String) (m : MatchDoc) : MatchDoc :=
  { m with
    status := .cancelled
    cancelled_at := some now
    predictions_locked := true
    cancellation_reason := match reason with | some r => some r | none => m.cancellation_reason }

/-- The `$set` of `MatchRepository.postpone_match`: the lock is reopened
only when a new scheduled time strictly in the future is supplied. -/
def postponeFn (now : Int) (newScheduledAt : Option Int) (m : MatchDoc) : MatchDoc :=
  match newScheduledAt with
  | none => { m with status := .postponed }
  | some t =>
      if now < t then { m with status := .postponed, scheduled_at := t, predictions_locked := false }
      else { m with status := .postponed, scheduled_at := t }

/-- The `$set` of `MatchRepository.lock_predictions`. -/
def lockFn (m : MatchDoc) : MatchDoc := { m with predictions_locked := true }

/-- The `$set` of `MatchRepository.unlock_predictions`. -/
def unlockFn (m : MatchDoc) : MatchDoc := { m with predictions_locked := false }

/-- Source `MatchRepository.increment_prediction_count`: an unguarded `$inc` by 1. -/
def incrementFn (m : MatchDoc) : MatchDoc :=
  { m with total_predictions := m.total_predictions + 1 }

/-- Source `MatchRepository.decrement_prediction_count`: the filter
`{"_id": mid, "total_predictions": {"$gt": 0}}` matches no document when
the counter is not positive, so the `$inc` by -1 applies only then. -/
def decrementFn (m : MatchDoc) : MatchDoc :=
  if 0 < m.total_predictions then { m with total_predictions := m.total_predictions - 1 }
  else m

/-!
### Scoring pass (`PredictionRepository.score_predictions_for_match`)
-/

/-- The `$set` applied to one unscored prediction inside the scoring loop
of `score_predictions_for_match`. -/
def scorePredictionFn (now : Int) (home away : Nat) (p : PredictionDoc) : PredictionDoc :=
  { p with
    is_scored := true
    points := some (calculate_points p.predicted_home_score p.predicted_away_score home away)
    actual_home_score := some home
    actual_away_score := some away
    scored_at := some now }

/-- The cursor filter of `score_predictions_for_match`:
`{"match_id": mid, "is_scored": False}`. -/
def unscoredForMatch (mid : Nat) (p : PredictionDoc) : Bool :=
  p.match_id == mid && p.is_scored == false

/-- Source `PredictionRepository.score_predictions_for_match`: update every
prediction matched by the cursor filter and return the new state with the
number of predictions scored. -/
def score_predictions_for_match (db : DB) (now : Int) (mid : Nat) (home away : Nat) :
    DB × Nat :=
  ({ db with
      predictions := db.predictions.map
        (fun p => if unscoredForMatch mid p then scorePredictionFn now home away p else p) },
   (db.predictions.filter (unscoredForMatch mid)).length)

/-!
### Match service (`src/services/match_service.py`)
-/

/-- The error taxonomy of `MatchService`: `MatchNotFoundError`,
`InvalidMatchStateError`, and the base `MatchServiceError` used for
validation failures such as a non-future schedule. -/
inductive MatchErr where
  | notFound
  | invalidState
  | serviceError
deriving DecidableEq, Repr

/-- Source `MatchCreate` (`src/models/match.py`), restricted to the fields
`MatchService.create_match` copies into the new document. -/
structure MatchCreateData where
  home_team : String
  away_team : String
  scheduled_at : Int
deriving DecidableEq, Repr

/-- Source `MatchService.create_match`: reject a schedule not strictly in the
future before anything is inserted; otherwise insert a fresh pending,
unlocked match document (whose id MongoDB supplies, here `newId`). -/
def create_match (db : DB) (now : Int) (newId : Nat) (data : MatchCreateData) :
    Except MatchErr MatchDoc × DB :=
  if data.scheduled_at ≤ now then (.error .serviceError, db)
  else
    let m : MatchDoc :=
      { id := newId
        home_team := data.home_team
        away_team := data.away_team
        scheduled_at := data.scheduled_at
        status := .pending
        home_score := none
        away_score := none
        started_at := none
        finished_at := none
        cancelled_at := none
        cancellation_reason := none
        predictions_locked := false
        total_predictions := 0 }
    (.ok m, { db with matchesColl := db.matchesColl ++ [m] })

/-- Source `MatchUpdate` (`src/models/match.py`), restricted to the fields
`MatchService.reschedule_match` sends through `update_match`. -/
structure MatchUpdateData where
  scheduled_at : Option Int
  status : Option MatchStatus
  predictions_locked : Option Bool
deriving DecidableEq, Repr

/-- Apply a `MatchUpdate`'s provided fields, as
`MatchRepository.update_by_id` does with its `$set`. -/
def applyMatchUpdate (u : MatchUpdateData) (m : MatchDoc) : MatchDoc :=
  { m with
    scheduled_at := u.scheduled_at.getD m.scheduled_at
    status := u.status.getD m.status
    predictions_locked := u.predictions_locked.getD m.predictions_locked }

/-- Source `MatchService.update_match`: refuse finished/cancelled matches, then
refuse a provided schedule that is not strictly in the future, then apply
the update. -/
def update_match (db : DB) (now : Int) (mid : Nat) (u : MatchUpdateData) :
    Except MatchErr MatchDoc × DB :=
  match findMatch db mid with
  | none => (.error .notFound, db)
  | some m =>
    if m.status = .finished ∨ m.status = .cancelled then (.error .invalidState, db)
    else
      match u.scheduled_at with
      | some t =>
          if t ≤ now then (.error .serviceError, db)
          else
            let db' := updateMatch db mid (applyMatchUpdate u)
            (.ok (applyMatchUpdate u m), db')
      | none =>
          let db' := updateMatch db mid (applyMatchUpdate u)
          (.ok (applyMatchUpdate u m), db')

/-- Source `MatchService.reschedule_match`: the strictly-in-the-future check runs
first, before the match is even fetched; then finished and live matches
are refused, and the update (new time, pending status, predictions
reopened) goes through `update_match`. -/
def reschedule_match (db : DB) (now : Int) (mid : Nat) (newScheduledAt : Int) :
    Except MatchErr MatchDoc × DB :=
  if newScheduledAt ≤ now then (.error .serviceError, db)
  else
    match findMatch db mid with
    | none => (.error .notFound, db)
    | some m =>
      if m.status = .finished then (.error .invalidState, db)
      else if m.status = .live then (.error .invalidState, db)
      else
        update_match db now mid
          { scheduled_at := some newScheduledAt
            status := some .pending
            predictions_locked := some false }

/-- Source `MatchService.finish_match`: refuse an already finished match and a
cancelled match; otherwise set the result (which forces the lock) and,
when `score_predictions` is true, run the scoring pass over the
currently-unscored predictions of this match.  Returns the updated match
and the number of predictions scored.  Note: this service holds no user
repository and never touches the `users` collection. -/
def finish_match (db : DB) (now : Int) (mid : Nat) (home away : Nat)
    (finishedAt : Option Int) (score_predictions : Bool) :
    Except MatchErr (MatchDoc × Nat) × DB :=
  match findMatch db mid with
  | none => (.error .notFound, db)
  | some m =>
    if m.status = .finished then (.error .invalidState, db)
    else if m.status = .cancelled then (.error .invalidState, db)
    else
      let db1 := updateMatch db mid (setResultFn now home away finishedAt)
      match findMatch db1 mid with
      | none => (.error .notFound, db1)
      | some m' =>
        if score_predictions then
          let (db2, cnt) := score_predictions_for_match db1 now mid home away
          (.ok (m', cnt), db2)
        else (.ok (m', 0), db1)

/-!
### Prediction service (`src/services/prediction_service.py`)
-/

/-- The error taxonomy of `PredictionService`: `PredictionNotAllowedError`,
`PredictionNotFoundError` and `DuplicatePredictionError`. -/
inductive PredictionErr where
  | notAllowed
  | notFound
  | duplicate
deriving DecidableEq, Repr

/-- Source `PredictionRepository.get_by_user_and_match` as a Boolean test:
whether a prediction for `(uid, mid)` exists. -/
def hasPrediction (db : DB) (uid mid : Nat) : Bool :=
  (db.predictions.find? (fun p => p.user_id == uid && p.match_id == mid)).isSome

/-- Source `PredictionService.create_prediction`, with the checks in source
order: user exists and is active; match exists; predictions not locked;
match status pending or postponed; no existing `(user, match)`
prediction; scores in range (the `< 0` half of the Python check is
vacuous over `Nat`).  On success the new document (id supplied by
MongoDB, here `newId`) is inserted, the match's `total_predictions` is
incremented, and the user's prediction counter is incremented by 1. -/
def create_prediction (db : DB) (newId uid mid homeScore awayScore : Nat) :
    Except PredictionErr PredictionDoc × DB :=
  match findUser db uid with
  | none => (.error .notAllowed, db)
  | some u =>
    if u.is_active = false then (.error .notAllowed, db)
    else
      match findMatch db mid with
      | none => (.error .notAllowed, db)
      | some m =>
        if m.predictions_locked then (.error .notAllowed, db)
        else if ¬(m.status = .pending ∨ m.status = .postponed) then (.error .notAllowed, db)
        else if hasPrediction db uid mid then (.error .duplicate, db)
        else if 99 < homeScore ∨ 99 < awayScore then (.error .notAllowed, db)
        else
          let p : PredictionDoc :=
            { id := newId
              user_id := uid
              match_id := mid
              predicted_home_score := homeScore
              predicted_away_score := awayScore
              is_scored := false
              points := none
              actual_home_score := none
              actual_away_score := none
              scored_at := none }
          let db1 := { db with predictions := db.predictions ++ [p] }
          let db2 := updateMatch db1 mid incrementFn
          let db3 := updateUser db2 uid
            (fun usr => { usr with total_predictions := usr.total_predictions + 1 })
          (.ok p, db3)

/-!
### Leaderboard engine (`AnalyticsService.get_leaderboard`)

The aggregation pipeline over the `predictions` collection is modelled
stage by stage: the `$match` stage (scored, inside the period window),
the `$group` by user, the qualification `$match`
(`total_predictions >= min_predictions`), the accuracy `$addFields`, the
two-key descending `$sort` with `$limit`, and the rank numbering of the
Python `enumerate(results, start=1)` loop.  The separate count pipeline
reuses only the first `$match` stage.
-/

/-- Source `LeaderboardType` from `src/models/analytics.py`. -/
inductive LeaderboardType where
  | points
  | accuracy
  | exact_scores
  | streak
  | efficiency
deriving DecidableEq, Repr

/-- The `$match` stage of the leaderboard pipeline:
`{"is_scored": true}` plus, when the period has a start,
`"scored_at": {"$gte": start, "$lte": end}` (a missing `scored_at` never
satisfies the range, per BSON comparison). -/
def lbMatchStage (periodStart : Option Int) (periodEnd : Int) (p : PredictionDoc) : Bool :=
  p.is_scored &&
    match periodStart with
    | none => true
    | some s =>
      match p.scored_at with
      | none => false
      | some t => s ≤ t && t ≤ periodEnd

/-- One group of the `$group` stage, keyed by `user_id`, with the
accuracy percentage added by the subsequent `$addFields` stage
(`$round` of `correct_count / total_predictions * 100` to 2 places). -/
structure LBRow where
  user_id : Nat
  total_points : Nat
  total_predictions : Nat
  exact_scores : Nat
  correct_count : Nat
  accuracy_percent : Rat
deriving DecidableEq, Repr

/-- Build the group row for user `u` from the `$match`-stage output
(`$sum: "$points"` ignores missing values; `$eq`/`$gt` against a missing
`points` are false). -/
def lbGroupRow (filtered : List PredictionDoc) (u : Nat) : LBRow :=
  let mine := filtered.filter (fun p => p.user_id == u)
  let correct := (mine.filter (fun p => match p.points with | some k => 0 < k | none => false)).length
  let total := mine.length
  { user_id := u
    total_points := (mine.map (fun p => p.points.getD 0)).sum
    total_predictions := total
    exact_scores := (mine.filter (fun p => p.points == some 3)).length
    correct_count := correct
    accuracy_percent := round2 ((correct : Rat) / (total : Rat) * 100) }

/-- Source `AnalyticsService._get_sort_field`: the dictionary lookup with
`"total_points"` as the default (so the `streak` type also sorts by
points). -/
def lbSortKey (t : LeaderboardType) (r : LBRow) : Rat :=
  match t with
  | .points => r.total_points
  | .accuracy => r.accuracy_percent
  | .exact_scores => r.exact_scores
  | .efficiency => r.accuracy_percent
  | .streak => r.total_points

/-- The `$sort: {sort_field: -1, total_predictions: -1}` comparator:
descending by the sort key, then descending by prediction count. -/
def lbBefore (t : LeaderboardType) (a b : LBRow) : Bool :=
  lbSortKey t b < lbSortKey t a ||
    (lbSortKey t a == lbSortKey t b && b.total_predictions ≤ a.total_predictions)

/-- Insert into a sorted list, keeping earlier elements first on ties
(executable stand-in for the `$sort` stage). -/
def insertSorted (le : α → α → Bool) (a : α) : List α → List α
  | [] => [a]
  | b :: l => if le a b then a :: b :: l else b :: insertSorted le a l

/-- Sort by the given comparator (executable stand-in for `$sort`). -/
def sortedBy (le : α → α → Bool) : List α → List α
  | [] => []
  | a :: l => insertSorted le a (sortedBy le l)

/-- Source `LeaderboardEntry` (`src/models/analytics.py`), restricted to the
fields the pipeline fills. -/
structure LBEntry where
  rank : Nat
  user_id : Nat
  total_points : Nat
  total_predictions : Nat
  accuracy_percent : Rat
  exact_scores : Nat
deriving DecidableEq, Repr

/-- The `for rank, entry in enumerate(results, start=1)` loop that turns
pipeline rows into `LeaderboardEntry` values. -/
def addRanks (rank : Nat) : List LBRow → List LBEntry
  | [] => []
  | r :: rest =>
      { rank := rank
        user_id := r.user_id
        total_points := r.total_points
        total_predictions := r.total_predictions
        accuracy_percent := r.accuracy_percent
        exact_scores := r.exact_scores } :: addRanks (rank + 1) rest

/-- Source `Leaderboard` (`src/models/analytics.py`), restricted to the fields
the claims are about. -/
structure LeaderboardResult where
  entries : List LBEntry
  total_participants : Nat
deriving DecidableEq, Repr

/-- Source `AnalyticsService.get_leaderboard`.  Its `total_participants` comes from
the separate count pipeline, which applies only the first `$match` stage
and counts distinct users — it does not apply the `min_predictions`
qualification. -/
def get_leaderboard (preds : List PredictionDoc) (t : LeaderboardType)
    (periodStart : Option Int) (periodEnd : Int) (limit min_predictions : Nat) :
    LeaderboardResult :=
  let filtered := preds.filter (lbMatchStage periodStart periodEnd)
  let users := (filtered.map (fun p => p.user_id)).dedup
  let rows := users.map (lbGroupRow filtered)
  let qualified := rows.filter (fun r => min_predictions ≤ r.total_predictions)
  let sorted := sortedBy (lbBefore t) qualified
  let entries := addRanks 1 (sorted.take limit)
  let total_participants := ((preds.filter (lbMatchStage periodStart periodEnd)).map
    (fun p => p.user_id)).dedup.length
  { entries := entries, total_participants := total_participants }

/-- Modelled from the spec for comparison with `get_leaderboard`'s
participant count: the number of qualified users, i.e. users with at
least `min_predictions` scored predictions inside the period window. -/
def specQualifiedUserCount (preds : List PredictionDoc)
    (periodStart : Option Int) (periodEnd : Int) (min_predictions : Nat) : Nat :=
  let filtered := preds.filter (lbMatchStage periodStart periodEnd)
  (((filtered.map (fun p => p.user_id)).dedup).filter
    (fun u => min_predictions ≤ (filtered.filter (fun p => p.user_id == u)).length)).length

/-!
## Theorems
-/

/-- C1: for every valid predicted pair `(ph, pa)` and actual pair
`(ah, aa)` with each component in 0..99, `calculate_points` awards points
by the exact precedence: 3 for the exact pair; otherwise 2 when the
outcome categories match and the goal differences agree; otherwise 1 when
only the outcome categories match; otherwise 0.  In particular a
prediction equal to the actual pair yields 3. -/
theorem calculate_points_precedence (ph pa ah aa : Nat)
    (hph : ph ≤ 99) (hpa : pa ≤ 99) (hah : ah ≤ 99) (haa : aa ≤ 99) :
    calculate_points ph pa ah aa =
      (if ph = ah ∧ pa = aa then 3
       else if outcomeOf ph pa = outcomeOf ah aa ∧ (ph : Int) - (pa : Int) = (ah : Int) - (aa : Int)
         then 2
       else if outcomeOf ph pa = outcomeOf ah aa then 1
       else 0)
    ∧ calculate_points ah aa ah aa = 3 := by
  refine ⟨rfl, ?_⟩
  simp [calculate_points]

/-- Witness for C1 at the spec's own examples: 3-1 against 4-2. -/
theorem calculate_points_precedence_witness :
    calculate_points 3 1 4 2 =
      (if 3 = 4 ∧ 1 = 2 then 3
       else if outcomeOf 3 1 = outcomeOf 4 2 ∧ (3 : Int) - (1 : Int) = (4 : Int) - (2 : Int)
         then 2
       else if outcomeOf 3 1 = outcomeOf 4 2 then 1
       else 0)
    ∧ calculate_points 4 2 4 2 = 3 :=
  calculate_points_precedence 3 1 4 2 (by decide) (by decide) (by decide) (by decide)

/-- C7: the derived ratios of `UserPredictionStats` are total: each
evaluates to exactly 0 when `scored_predictions = 0`, and otherwise to
the corresponding quotient (correct over scored, points over scored,
points over `3 * scored` as a percentage) rounded to 2 decimal places. -/
theorem user_stats_ratios_total (s : UserStatsCounts) :
    (s.scored_predictions = 0 →
      accuracy_percent s = 0 ∧ avg_points_per_prediction s = 0 ∧ points_efficiency s = 0)
    ∧ (0 < s.scored_predictions →
      accuracy_percent s =
        round2 (((s.exact_scores + s.correct_diffs + s.correct_outcomes : Nat) : Rat) /
          (s.scored_predictions : Rat) * 100)
      ∧ avg_points_per_prediction s =
        round2 ((s.total_points : Rat) / (s.scored_predictions : Rat))
      ∧ points_efficiency s =
        round2 ((s.total_points : Rat) / ((3 * s.scored_predictions : Nat) : Rat) * 100)) := by
  constructor
  · intro h
    simp [accuracy_percent, avg_points_per_prediction, points_efficiency, h]
  · intro h
    have h0 : s.scored_predictions ≠ 0 := Nat.pos_iff_ne_zero.mp h
    refine ⟨by simp [accuracy_percent, h0], by simp [avg_points_per_prediction, h0], ?_⟩
    have h3 : s.scored_predictions * 3 ≠ 0 := by
      simp [Nat.mul_eq_zero, h0]
    simp only [points_efficiency, h3, if_false]
    rw [Nat.mul_comm s.scored_predictions 3]

/-- Witness for C7 at a concrete all-zero snapshot and a concrete
non-empty snapshot. -/
theorem user_stats_ratios_total_witness :
    accuracy_percent ⟨0, 0, 0, 0, 0, 0⟩ = 0 ∧
      avg_points_per_prediction ⟨0, 0, 0, 0, 0, 0⟩ = 0 ∧
      points_efficiency ⟨0, 0, 0, 0, 0, 0⟩ = 0 :=
  (user_stats_ratios_total ⟨0, 0, 0, 0, 0, 0⟩).1 rfl

/-- C8: the trend classification of `UserTrend.trend_direction` agrees
with the spec's description: "stable" below 2 buckets, otherwise the mean
accuracy of the last up-to-3 buckets against the mean of the first 3
buckets, with the ±5 point thresholds. -/
theorem trend_direction_spec (l : List Rat) :
    trend_direction l = specTrendDirection l := by
  unfold trend_direction specTrendDirection
  by_cases h2 : l.length < 2
  · simp [h2]
  · by_cases h3 : 3 ≤ l.length
    · simp [h2, h3]
    · have hz : l.length - 3 = 0 := Nat.sub_eq_zero_of_le (Nat.le_of_not_le h3)
      simp [h2, h3, hz]

/-- C9: a match's denormalized prediction counter stays non-negative:
the guarded decrement, iterated any number of times, never drives it
below zero; the increment adds exactly one; every other match-document
update leaves the counter unchanged. -/
theorem prediction_counter_invariant (m : MatchDoc) (now : Int) (home away : Nat)
    (fAt newT : Option Int) (reason : Option String) (u : MatchUpdateData)
    (h : 0 ≤ m.total_predictions) :
    (∀ n : Nat, 0 ≤ (decrementFn^[n] m).total_predictions)
    ∧ (incrementFn m).total_predictions = m.total_predictions + 1
    ∧ (setResultFn now home away fAt m).total_predictions = m.total_predictions
    ∧ (startFn now m).total_predictions = m.total_predictions
    ∧ (cancelFn now reason m).total_predictions = m.total_predictions
    ∧ (postponeFn now newT m).total_predictions = m.total_predictions
    ∧ (lockFn m).total_predictions = m.total_predictions
    ∧ (unlockFn m).total_predictions = m.total_predictions
    ∧ (applyMatchUpdate u m).total_predictions = m.total_predictions := by
  refine ⟨?_, rfl, rfl, rfl, rfl, ?_, rfl, rfl, rfl⟩
  · intro n
    induction n generalizing m with
    | zero => simpa using h
    | succ k ih =>
        rw [Function.iterate_succ_apply]
        apply ih
        unfold decrementFn
        split
        · show (0 : Int) ≤ m.total_predictions - 1
          omega
        · exact h
  · unfold postponeFn
    cases newT with
    | none => rfl
    | some t => dsimp only; split <;> rfl

/-- Witness for C9 at a concrete match document with counter 1. -/
theorem prediction_counter_invariant_witness :
    0 ≤ (decrementFn^[2]
      ({ id := 1, home_team := "A", away_team := "B", scheduled_at := 10, status := .pending,
         home_score := none, away_score := none, started_at := none, finished_at := none,
         cancelled_at := none, cancellation_reason := none, predictions_locked := false,
         total_predictions := 1 } : MatchDoc)).total_predictions :=
  (prediction_counter_invariant _ 0 0 0 none none none ⟨none, none, none⟩ (by decide)).1 2

/-- C10: a match-creation request whose scheduled time is not strictly in
the future fails with a service error and leaves the store unchanged (no
match document is created); the same strictly-in-the-future check rejects
reschedules, and updates carrying a non-future time, on non-terminal
matches. -/
theorem schedule_must_be_future :
    (∀ (db : DB) (now : Int) (newId : Nat) (data : MatchCreateData),
      data.scheduled_at ≤ now →
      create_match db now newId data = (.error .serviceError, db))
    ∧ (∀ (db : DB) (now : Int) (mid : Nat) (t : Int),
      t ≤ now →
      reschedule_match db now mid t = (.error .serviceError, db))
    ∧ (∀ (db : DB) (now : Int) (mid : Nat) (u : MatchUpdateData) (t : Int) (m : MatchDoc),
      findMatch db mid = some m →
      ¬(m.status = .finished ∨ m.status = .cancelled) →
      u.scheduled_at = some t →
      t ≤ now →
      update_match db now mid u = (.error .serviceError, db)) := by
  refine ⟨?_, ?_, ?_⟩
  · intro db now newId data hle
    unfold create_match
    simp [hle]
  · intro db now mid t hle
    unfold reschedule_match
    simp [hle]
  · intro db now mid u t m hfind hstat hsched hle
    unfold update_match
    rw [hfind]
    simp [hstat, hsched, hle]

/-- Witness for C10: creating a match scheduled exactly at the current
time fails with a service error and changes nothing. -/
theorem schedule_must_be_future_witness :
    create_match ⟨[], [], []⟩ 5 1 ⟨"A", "B", 5⟩ =
      (.error .serviceError, (⟨[], [], []⟩ : DB)) :=
  schedule_must_be_future.1 ⟨[], [], []⟩ 5 1 ⟨"A", "B", 5⟩ (by decide)

/-- Looking a match up after an id-preserving update finds the updated
document. -/
lemma findMatch_updateMatch (db : DB) (mid : Nat) (f : MatchDoc → MatchDoc)
    (hf : ∀ x, (f x).id = x.id) (m : MatchDoc) (hfind : findMatch db mid = some m) :
    findMatch (updateMatch db mid f) mid = some (f m) := by
  have hfind0 : db.matchesColl.find? (fun x => x.id == mid) = some m := hfind
  have hpm0 := List.find?_some hfind0
  have hpm : (m.id == mid) = true := by simpa using hpm0
  unfold findMatch updateMatch at *
  rw [List.find?_map]
  have hcomp :
      ((fun x : MatchDoc => x.id == mid) ∘ fun x => if x.id == mid then f x else x)
        = fun x : MatchDoc => x.id == mid := by
    funext x
    by_cases hx : (x.id == mid) = true
    · simp [Function.comp, hx, hf]
    · simp [Function.comp, hx]
  rw [hcomp, hfind0]
  have hid : m.id = mid := by simpa using hpm
  simp [hid]

/-- Applying `setResultFn` does not change the document id. -/
lemma setResultFn_id (now : Int) (home away : Nat) (fAt : Option Int) (x : MatchDoc) :
    (setResultFn now home away fAt x).id = x.id := rfl

/-- C2: finishing a match whose status is already `finished` fails with
an `InvalidState` error and returns the store unchanged — no prediction is
re-scored, no user total moves, the match document stays as it was; and
the scoring pass selects only `is_scored = false` predictions, so an
already-scored prediction passes through it untouched. -/
theorem finish_already_finished_no_effect :
    (∀ (db : DB) (now : Int) (mid : Nat) (home away : Nat) (fAt : Option Int) (sp : Bool)
      (m : MatchDoc),
      findMatch db mid = some m → m.status = .finished →
      finish_match db now mid home away fAt sp = (.error .invalidState, db))
    ∧ (∀ (db : DB) (now : Int) (mid : Nat) (home away : Nat) (p : PredictionDoc),
      p ∈ db.predictions → p.is_scored = true →
      p ∈ ((score_predictions_for_match db now mid home away).1).predictions) := by
  constructor
  · intro db now mid home away fAt sp m hfind hstat
    unfold finish_match
    rw [hfind]
    simp [hstat]
  · intro db now mid home away p hp hscored
    show p ∈ db.predictions.map _
    rw [List.mem_map]
    exact ⟨p, hp, by simp [unscoredForMatch, hscored]⟩

/-- An already-finished match document, used to witness C2. -/
def finishedMatchDoc : MatchDoc :=
  { id := 1, home_team := "A", away_team := "B", scheduled_at := 10,
    status := .finished, home_score := some 2, away_score := some 1, started_at := none,
    finished_at := some 15, cancelled_at := none, cancellation_reason := none,
    predictions_locked := true, total_predictions := 0 }

/-- A store with a single already-finished match, used to witness C2. -/
def finishedOnlyDB : DB :=
  { matchesColl := [finishedMatchDoc], predictions := [], users := [] }

/-- Witness for C2: a second `finish` on the finished match of
`finishedOnlyDB` fails with `InvalidState` and leaves the store as it
was. -/
theorem finish_already_finished_no_effect_witness :
    finish_match finishedOnlyDB 20 1 3 3 none true = (.error .invalidState, finishedOnlyDB) :=
  finish_already_finished_no_effect.1 finishedOnlyDB 20 1 3 3 none true
    finishedMatchDoc rfl rfl

/-- The match, prediction and user documents of the C3 scenario: a
pending match with one unscored prediction by user 1, whose denormalized
total stands at 0. -/
def c3Match : MatchDoc :=
  { id := 1, home_team := "A", away_team := "B", scheduled_at := 10, status := .pending,
    home_score := none, away_score := none, started_at := none, finished_at := none,
    cancelled_at := none, cancellation_reason := none, predictions_locked := false,
    total_predictions := 1 }

/-- An unscored prediction of 2-1 by user 1 on match 1. -/
def c3Pred : PredictionDoc :=
  { id := 1, user_id := 1, match_id := 1, predicted_home_score := 2, predicted_away_score := 1,
    is_scored := false, points := none, actual_home_score := none, actual_away_score := none,
    scored_at := none }

/-- User 1 with zero denormalized points. -/
def c3User : UserDoc := { id := 1, is_active := true, total_predictions := 1, total_points := 0 }

/-- The C3 store. -/
def c3DB : DB := { matchesColl := [c3Match], predictions := [c3Pred], users := [c3User] }

/-- C3 counterexample: finishing the pending match of `c3DB` at 2-1
succeeds and scores the prediction with 3 points (an exact hit), yet the
owning user's denormalized `total_points` is still 0 afterwards, not
0 + 3 — `finish_match` never touches the `users` collection, so the
claimed per-user increment does not happen. -/
theorem finish_leaves_user_points_counterexample :
    (finish_match c3DB 20 1 2 1 none true).1 =
      .ok (setResultFn 20 2 1 none c3Match, 1)
    ∧ ((finish_match c3DB 20 1 2 1 none true).2).predictions =
      [scorePredictionFn 20 2 1 c3Pred]
    ∧ (scorePredictionFn 20 2 1 c3Pred).points = some 3
    ∧ (findUser ((finish_match c3DB 20 1 2 1 none true).2) 1).map UserDoc.total_points
      = some 0
    ∧ some (0 : Int) ≠ some ((0 : Int) + 3) := by
  refine ⟨rfl, rfl, rfl, rfl, by decide⟩

/-- C3 as amended: when `finish` succeeds on a non-finished,
non-cancelled match with scoring enabled, every prediction of that match
that was unscored before the call is afterwards scored with exactly the
points of the scoring rules against the final score — but the `users`
collection is returned untouched: `finish_match` applies no point delta
to any user's denormalized totals (that update belongs to the separate
`PredictionService.score_match_predictions` flow). -/
theorem finish_scores_unscored_predictions (db : DB) (now : Int) (mid : Nat)
    (home away : Nat) (fAt : Option Int) (m : MatchDoc)
    (hfind : findMatch db mid = some m)
    (hnf : m.status ≠ .finished) (hnc : m.status ≠ .cancelled) :
    (finish_match db now mid home away fAt true).1 =
      .ok (setResultFn now home away fAt m,
        (db.predictions.filter (unscoredForMatch mid)).length)
    ∧ ((finish_match db now mid home away fAt true).2).users = db.users
    ∧ ∀ p ∈ db.predictions, p.match_id = mid → p.is_scored = false →
        scorePredictionFn now home away p ∈
          ((finish_match db now mid home away fAt true).2).predictions := by
  have hfind' := findMatch_updateMatch db mid (setResultFn now home away fAt)
    (setResultFn_id now home away fAt) m hfind
  have hout : finish_match db now mid home away fAt true =
      (.ok (setResultFn now home away fAt m,
        (db.predictions.filter (unscoredForMatch mid)).length),
       (score_predictions_for_match (updateMatch db mid (setResultFn now home away fAt))
         now mid home away).1) := by
    unfold finish_match
    rw [hfind]
    simp only [hnf, hnc, if_false, hfind']
    rfl
  rw [hout]
  refine ⟨rfl, rfl, ?_⟩
  intro p hp hpm hps
  show scorePredictionFn now home away p ∈ db.predictions.map _
  rw [List.mem_map]
  refine ⟨p, hp, ?_⟩
  simp [unscoredForMatch, hpm, hps]

/-- Witness for C3 as amended, at the `c3DB` scenario. -/
theorem finish_scores_unscored_predictions_witness :
    (finish_match c3DB 20 1 2 1 none true).1 =
      .ok (setResultFn 20 2 1 none c3Match,
        (c3DB.predictions.filter (unscoredForMatch 1)).length)
    ∧ ((finish_match c3DB 20 1 2 1 none true).2).users = c3DB.users
    ∧ ∀ p ∈ c3DB.predictions, p.match_id = 1 → p.is_scored = false →
        scorePredictionFn 20 2 1 p ∈ ((finish_match c3DB 20 1 2 1 none true).2).predictions :=
  finish_scores_unscored_predictions c3DB 20 1 2 1 none c3Match rfl
    (by decide) (by decide)

/-- A pending but prediction-locked match, used in the C4 scenario. -/
def c4LockedMatch : MatchDoc :=
  { id := 1, home_team := "A", away_team := "B", scheduled_at := 10, status := .pending,
    home_score := none, away_score := none, started_at := none, finished_at := none,
    cancelled_at := none, cancellation_reason := none, predictions_locked := true,
    total_predictions := 1 }

/-- The existing prediction of user 1 on the locked match. -/
def c4Pred : PredictionDoc :=
  { id := 1, user_id := 1, match_id := 1, predicted_home_score := 1, predicted_away_score := 0,
    is_scored := false, points := none, actual_home_score := none, actual_away_score := none,
    scored_at := none }

/-- An active user, used in the C4 scenario. -/
def c4User : UserDoc := { id := 1, is_active := true, total_predictions := 1, total_points := 0 }

/-- The C4 store: user 1 already has a prediction for match 1, but the
match's predictions are locked. -/
def c4DB : DB :=
  { matchesColl := [c4LockedMatch], predictions := [c4Pred], users := [c4User] }

/-- C4 counterexample: user 1 already has a prediction for match 1, yet a
second `create_prediction` does not fail with the duplicate-prediction
error — the predictions-locked check fires first and raises
`PredictionNotAllowedError` instead (the duplicate check is only reached
on an unlocked, predictable match). -/
theorem create_prediction_locked_counterexample :
    hasPrediction c4DB 1 1 = true
    ∧ (create_prediction c4DB 99 1 1 2 1).1 = .error .notAllowed
    ∧ (create_prediction c4DB 99 1 1 2 1).1 ≠ .error .duplicate := by
  refine ⟨rfl, rfl, ?_⟩
  show (Except.error PredictionErr.notAllowed : Except PredictionErr PredictionDoc)
    ≠ .error .duplicate
  simp

/-- C4 as amended: if a prediction by the user for the match already
exists then `create_prediction` mutates nothing (the store comes back
unchanged, so the match's and the user's counters keep their values and
no document is inserted) and never succeeds; and when the earlier
validations pass — the user exists and is active, the match exists, is
not locked and is pending or postponed — the failure is specifically the
duplicate-prediction error. -/
theorem create_prediction_duplicate_rejected (db : DB) (newId uid mid hs aws : Nat)
    (hex : hasPrediction db uid mid = true) :
    (create_prediction db newId uid mid hs aws).2 = db
    ∧ (∀ r, (create_prediction db newId uid mid hs aws).1 ≠ .ok r)
    ∧ (∀ u m, findUser db uid = some u → u.is_active = true → findMatch db mid = some m →
        m.predictions_locked = false → (m.status = .pending ∨ m.status = .postponed) →
        create_prediction db newId uid mid hs aws = (.error .duplicate, db)) := by
  refine ⟨?_, ?_, ?_⟩
  · unfold create_prediction
    repeat' split
    all_goals first | rfl | simp_all
  · intro r
    unfold create_prediction
    repeat' split
    all_goals simp_all
  · intro u m hfu hact hfm hlock hstat
    unfold create_prediction
    rw [hfu, hfm]
    simp [hact, hlock, hstat, hex]

/-- A predictable (pending, unlocked) match, used to witness the
duplicate branch of C4. -/
def c4OpenMatch : MatchDoc :=
  { id := 2, home_team := "C", away_team := "D", scheduled_at := 10, status := .pending,
    home_score := none, away_score := none, started_at := none, finished_at := none,
    cancelled_at := none, cancellation_reason := none, predictions_locked := false,
    total_predictions := 1 }

/-- The existing prediction of user 1 on the open match. -/
def c4OpenPred : PredictionDoc :=
  { id := 2, user_id := 1, match_id := 2, predicted_home_score := 1, predicted_away_score := 0,
    is_scored := false, points := none, actual_home_score := none, actual_away_score := none,
    scored_at := none }

/-- The store witnessing the duplicate branch of C4: an active user with
an existing prediction on a predictable match. -/
def c4OpenDB : DB :=
  { matchesColl := [c4OpenMatch], predictions := [c4OpenPred], users := [c4User] }

/-- Witness for C4 as amended, at the `c4OpenDB` scenario where every
validation before the duplicate check passes. -/
theorem create_prediction_duplicate_rejected_witness :
    (create_prediction c4OpenDB 99 1 2 2 1).2 = c4OpenDB
    ∧ (∀ r, (create_prediction c4OpenDB 99 1 2 2 1).1 ≠ .ok r)
    ∧ (∀ u m, findUser c4OpenDB 1 = some u → u.is_active = true → findMatch c4OpenDB 2 = some m →
        m.predictions_locked = false → (m.status = .pending ∨ m.status = .postponed) →
        create_prediction c4OpenDB 99 1 2 2 1 = (.error .duplicate, c4OpenDB)) :=
  create_prediction_duplicate_rejected c4OpenDB 99 1 2 2 1 rfl

/-- Membership in `insertSorted` is membership in the input plus the new
element. -/
lemma mem_insertSorted (le : α → α → Bool) (a x : α) (l : List α) :
    x ∈ insertSorted le a l ↔ x = a ∨ x ∈ l := by
  induction l with
  | nil => simp [insertSorted]
  | cons b t ih =>
      unfold insertSorted
      split
      · simp
      · simp only [List.mem_cons, ih]
        tauto

/-- Sorting with `sortedBy` permutes its input, so membership is unchanged. -/
lemma mem_sortedBy (le : α → α → Bool) (x : α) (l : List α) :
    x ∈ sortedBy le l ↔ x ∈ l := by
  induction l with
  | nil => simp [sortedBy]
  | cons b t ih =>
      unfold sortedBy
      rw [mem_insertSorted, ih]
      simp

/-- Every entry produced by `addRanks` carries the prediction count of
one of the rows it was built from. -/
lemma addRanks_total_predictions (n : Nat) (l : List LBRow) (e : LBEntry)
    (he : e ∈ addRanks n l) : ∃ r ∈ l, e.total_predictions = r.total_predictions := by
  induction l generalizing n with
  | nil => simp [addRanks] at he
  | cons r t ih =>
      unfold addRanks at he
      rcases List.mem_cons.mp he with h | h
      · exact ⟨r, List.mem_cons_self r t, by rw [h]⟩
      · obtain ⟨r', hr', h'⟩ := ih (n + 1) h
        exact ⟨r', List.mem_cons_of_mem r hr', h'⟩

/-- A scored prediction record for the C5 scenario. -/
def lbPred (pid uid : Nat) : PredictionDoc :=
  { id := pid, user_id := uid, match_id := 1, predicted_home_score := 1,
    predicted_away_score := 0, is_scored := true, points := some 1,
    actual_home_score := some 1, actual_away_score := some 0, scored_at := some 0 }

/-- The C5 scenario: user 1 has five scored predictions, user 2 only
one, and the qualification threshold is five. -/
def c5Preds : List PredictionDoc :=
  [lbPred 1 1, lbPred 2 1, lbPred 3 1, lbPred 4 1, lbPred 5 1, lbPred 6 2]

/-- C5 counterexample: with `min_predictions = 5` over `c5Preds`, only
user 1 qualifies, yet `get_leaderboard` reports `total_participants = 2`
— its count pipeline reuses only the first `$match` stage and never
applies the qualification threshold, so user 2 with a single scored
prediction is counted. -/
theorem leaderboard_participant_count_counterexample :
    (get_leaderboard c5Preds .points none 0 10 5).total_participants = 2
    ∧ specQualifiedUserCount c5Preds none 0 5 = 1
    ∧ (2 : Nat) ≠ 1 := by
  refine ⟨by decide, by decide, by decide⟩

/-- C5 as amended: the qualification threshold is applied to the ranked
entries — every returned entry belongs to a user with at least
`min_predictions` scored predictions in the period window — but the
returned `total_participants` equals the number of distinct users with
at least one scored prediction in the window, not the number of
qualified users. -/
theorem leaderboard_entries_qualified (preds : List PredictionDoc) (t : LeaderboardType)
    (periodStart : Option Int) (periodEnd : Int) (limit min_predictions : Nat) :
    (∀ e ∈ (get_leaderboard preds t periodStart periodEnd limit min_predictions).entries,
      min_predictions ≤ e.total_predictions)
    ∧ (get_leaderboard preds t periodStart periodEnd limit min_predictions).total_participants
      = ((preds.filter (lbMatchStage periodStart periodEnd)).map
          (fun p => p.user_id)).dedup.length := by
  refine ⟨?_, rfl⟩
  intro e he
  obtain ⟨r, hr, hcount⟩ := addRanks_total_predictions 1 _ e he
  have hr' := List.take_subset _ _ hr
  rw [mem_sortedBy] at hr'
  have := (List.mem_filter.mp hr').2
  rw [hcount]
  exact Nat.le_of_ble_eq_true (by simpa using this)

/-- Witness for C5 as amended, instantiated at the `c5Preds` scenario. -/
theorem leaderboard_entries_qualified_witness :
    (∀ e ∈ (get_leaderboard c5Preds .points none 0 10 5).entries,
      5 ≤ e.total_predictions)
    ∧ (get_leaderboard c5Preds .points none 0 10 5).total_participants
      = ((c5Preds.filter (lbMatchStage none 0)).map (fun p => p.user_id)).dedup.length :=
  leaderboard_entries_qualified c5Preds .points none 0 10 5

/-!
### Run characterizations for the streak proof

A "run" of elements satisfying `p` is a contiguous block; `MaxBlock`
states that `k` is the length of the longest such block, `MaxTrail` that
`k` is the length of the trailing such block.
-/

/-- List `l` contains a contiguous block of `k` elements all satisfying `p`. -/
def IsBlockOf (p : Nat → Prop) (l : List Nat) (k : Nat) : Prop :=
  ∃ pre mid post, l = pre ++ mid ++ post ∧ mid.length = k ∧ ∀ x ∈ mid, p x

/-- List `l` ends with a block of `k` elements all satisfying `p`. -/
def IsTrailOf (p : Nat → Prop) (l : List Nat) (k : Nat) : Prop :=
  ∃ pre mid, l = pre ++ mid ∧ mid.length = k ∧ ∀ x ∈ mid, p x

/-- Value `k` is the length of the longest contiguous `p`-block of `l`. -/
def MaxBlock (p : Nat → Prop) (l : List Nat) (k : Nat) : Prop :=
  IsBlockOf p l k ∧ ∀ n, IsBlockOf p l n → n ≤ k

/-- Value `k` is the length of the trailing `p`-block of `l`. -/
def MaxTrail (p : Nat → Prop) (l : List Nat) (k : Nat) : Prop :=
  IsTrailOf p l k ∧ ∀ n, IsTrailOf p l n → n ≤ k

/-- Two lists ending in a single element agree componentwise. -/
lemma concat_eq_concat {α : Type} {l a : List α} {x y : α}
    (h : l ++ [x] = a ++ [y]) : l = a ∧ x = y := by
  obtain ⟨h1, h2⟩ := List.append_inj' h rfl
  exact ⟨h1, by injection h2⟩

lemma maxTrail_nil (p : Nat → Prop) : MaxTrail p [] 0 := by
  constructor
  · exact ⟨[], [], rfl, rfl, by simp⟩
  · rintro n ⟨pre, mid, he, hlen, -⟩
    have : mid = [] := (List.append_eq_nil.mp he.symm).2
    simp [this] at hlen
    omega

lemma maxBlock_nil (p : Nat → Prop) : MaxBlock p [] 0 := by
  constructor
  · exact ⟨[], [], [], rfl, rfl, by simp⟩
  · rintro n ⟨pre, mid, post, he, hlen, -⟩
    have h1 : pre ++ mid ++ post = [] := he.symm
    have : mid = [] := by
      rcases List.append_eq_nil.mp h1 with ⟨h2, -⟩
      exact (List.append_eq_nil.mp h2).2
    simp [this] at hlen
    omega

lemma maxTrail_concat_pos {p : Nat → Prop} {x : Nat} {l : List Nat} {k : Nat}
    (hx : p x) (h : MaxTrail p l k) : MaxTrail p (l ++ [x]) (k + 1) := by
  obtain ⟨⟨pre, mid, he, hlen, hall⟩, hbound⟩ := h
  constructor
  · refine ⟨pre, mid ++ [x], by rw [he, List.append_assoc], by simp [hlen], ?_⟩
    intro y hy
    rcases List.mem_append.mp hy with hy | hy
    · exact hall y hy
    · simp at hy; subst hy; exact hx
  · rintro n ⟨pre', mid', he', hlen', hall'⟩
    rcases List.eq_nil_or_concat mid' with hm | ⟨mid'', y, hm⟩
    · subst hm; simp at hlen'; omega
    · rw [List.concat_eq_append] at hm
      subst hm
      have he'' : l ++ [x] = (pre' ++ mid'') ++ [y] := by
        rw [he']; simp [List.append_assoc]
      obtain ⟨hl, -⟩ := concat_eq_concat he''
      have hmid'' : IsTrailOf p l mid''.length :=
        ⟨pre', mid'', hl, rfl, fun z hz => hall' z (List.mem_append_left _ hz)⟩
      have := hbound mid''.length hmid''
      simp at hlen'
      omega

lemma maxTrail_concat_neg {p : Nat → Prop} {x : Nat} {l : List Nat}
    (hx : ¬p x) : MaxTrail p (l ++ [x]) 0 := by
  constructor
  · exact ⟨l ++ [x], [], by simp, rfl, by simp⟩
  · rintro n ⟨pre', mid', he', hlen', hall'⟩
    rcases List.eq_nil_or_concat mid' with hm | ⟨mid'', y, hm⟩
    · subst hm; simp at hlen'; omega
    · subst hm
      have he'' : l ++ [x] = (pre' ++ mid'') ++ [y] := by
        rw [he']; simp [List.append_assoc]
      obtain ⟨-, hxy⟩ := concat_eq_concat he''
      exact absurd (hxy ▸ hall' y (by simp)) hx

lemma maxBlock_concat_pos {p : Nat → Prop} {x : Nat} {l : List Nat} {k b : Nat}
    (hx : p x) (ht : MaxTrail p l k) (hb : MaxBlock p l b) :
    MaxBlock p (l ++ [x]) (max b (k + 1)) := by
  have ht' := maxTrail_concat_pos hx ht
  constructor
  · rcases Nat.le_total (k + 1) b with hle | hle
    · obtain ⟨pre, mid, post, he, hlen, hall⟩ := hb.1
      rw [Nat.max_eq_left hle]
      exact ⟨pre, mid, post ++ [x], by rw [he]; simp [List.append_assoc], hlen, hall⟩
    · obtain ⟨pre, mid, he, hlen, hall⟩ := ht'.1
      rw [Nat.max_eq_right hle]
      exact ⟨pre, mid, [], by rw [he]; simp, hlen, hall⟩
  · rintro n ⟨pre', mid', post', he', hlen', hall'⟩
    rcases List.eq_nil_or_concat post' with hps | ⟨post'', y, hps⟩
    · subst hps
      have : IsTrailOf p (l ++ [x]) n := ⟨pre', mid', by rw [he']; simp, hlen', hall'⟩
      exact le_trans (ht'.2 n this) (Nat.le_max_right _ _)
    · subst hps
      have he'' : l ++ [x] = (pre' ++ mid' ++ post'') ++ [y] := by
        rw [he']; simp [List.append_assoc]
      obtain ⟨hl, -⟩ := concat_eq_concat he''
      have : IsBlockOf p l n := ⟨pre', mid', post'', by rw [hl], hlen', hall'⟩
      exact le_trans (hb.2 n this) (Nat.le_max_left _ _)

lemma maxBlock_concat_neg {p : Nat → Prop} {x : Nat} {l : List Nat} {b : Nat}
    (hx : ¬p x) (hb : MaxBlock p l b) : MaxBlock p (l ++ [x]) b := by
  constructor
  · obtain ⟨pre, mid, post, he, hlen, hall⟩ := hb.1
    exact ⟨pre, mid, post ++ [x], by rw [he]; simp [List.append_assoc], hlen, hall⟩
  · rintro n ⟨pre', mid', post', he', hlen', hall'⟩
    rcases List.eq_nil_or_concat post' with hps | ⟨post'', y, hps⟩
    · subst hps
      rcases List.eq_nil_or_concat mid' with hm | ⟨mid'', z, hm⟩
      · subst hm; simp at hlen'; omega
      · subst hm
        have he'' : l ++ [x] = (pre' ++ mid'') ++ [z] := by
          rw [he']; simp [List.append_assoc]
        obtain ⟨-, hxz⟩ := concat_eq_concat he''
        exact absurd (hxz ▸ hall' z (by simp)) hx
    · subst hps
      have he'' : l ++ [x] = (pre' ++ mid' ++ post'') ++ [y] := by
        rw [he']; simp [List.append_assoc]
      obtain ⟨hl, -⟩ := concat_eq_concat he''
      exact hb.2 n ⟨pre', mid', post'', by rw [hl], hlen', hall'⟩

/-- The loop of `_calculate_streaks` maintains: `temp_streak` is the
trailing hit-run length, `temp_losing` the trailing miss-run length,
`best_streak` the longest hit run, `worst_streak` the longest miss run. -/
lemma streak_foldl_spec (l : List Nat) :
    MaxTrail (fun r => r = 1) l ((l.foldl streakStep (0, 0, 0, 0)).2.2.1)
    ∧ MaxTrail (fun r => ¬r = 1) l ((l.foldl streakStep (0, 0, 0, 0)).2.2.2)
    ∧ MaxBlock (fun r => r = 1) l ((l.foldl streakStep (0, 0, 0, 0)).1)
    ∧ MaxBlock (fun r => ¬r = 1) l ((l.foldl streakStep (0, 0, 0, 0)).2.1) := by
  induction l using List.reverseRecOn with
  | nil => exact ⟨maxTrail_nil _, maxTrail_nil _, maxBlock_nil _, maxBlock_nil _⟩
  | append_singleton l x ih =>
    obtain ⟨ht1, ht0, hb1, hb0⟩ := ih
    rw [List.foldl_append, List.foldl_cons, List.foldl_nil]
    by_cases hx : x = 1
    · have hstep : streakStep (l.foldl streakStep (0, 0, 0, 0)) x =
        (max (l.foldl streakStep (0, 0, 0, 0)).1 ((l.foldl streakStep (0, 0, 0, 0)).2.2.1 + 1),
         (l.foldl streakStep (0, 0, 0, 0)).2.1,
         (l.foldl streakStep (0, 0, 0, 0)).2.2.1 + 1, 0) := by
        simp [streakStep, hx]
      rw [hstep]
      exact ⟨maxTrail_concat_pos hx ht1, maxTrail_concat_neg (fun h => h hx),
        maxBlock_concat_pos hx ht1 hb1, maxBlock_concat_neg (fun h => h hx) hb0⟩
    · have hstep : streakStep (l.foldl streakStep (0, 0, 0, 0)) x =
        ((l.foldl streakStep (0, 0, 0, 0)).1,
         max (l.foldl streakStep (0, 0, 0, 0)).2.1 ((l.foldl streakStep (0, 0, 0, 0)).2.2.2 + 1),
         0, (l.foldl streakStep (0, 0, 0, 0)).2.2.2 + 1) := by
        simp [streakStep, hx]
      rw [hstep]
      exact ⟨maxTrail_concat_neg hx, maxTrail_concat_pos hx ht0,
        maxBlock_concat_neg hx hb1, maxBlock_concat_pos hx ht0 hb0⟩

/-- Lemma: `takeWhile` swallows a leading block that satisfies the predicate. -/
lemma takeWhile_all_append (p : Nat → Bool) (a b : List Nat)
    (h : ∀ x ∈ a, p x = true) :
    (a ++ b).takeWhile p = a ++ b.takeWhile p := by
  induction a with
  | nil => simp
  | cons y t ih =>
      have hy : p y = true := h y (List.mem_cons_self _ _)
      simp only [List.cons_append, List.takeWhile_cons, hy, if_true]
      rw [ih (fun x hx => h x (List.mem_cons_of_mem _ hx))]

/-- The trailing loop of `_calculate_streaks` computes the trailing
hit-run length. -/
lemma maxTrail_trailingOnes (l : List Nat) :
    MaxTrail (fun r => r = 1) l (trailingOnes l) := by
  constructor
  · refine ⟨(l.reverse.dropWhile (fun r => r == 1)).reverse,
      (l.reverse.takeWhile (fun r => r == 1)).reverse, ?_, by simp [trailingOnes], ?_⟩
    · rw [← List.reverse_append, List.takeWhile_append_dropWhile, List.reverse_reverse]
    · intro x hx
      rw [List.mem_reverse] at hx
      have := List.mem_takeWhile_imp hx
      simpa using this
  · rintro n ⟨pre, mid, he, hlen, hall⟩
    have hrev : l.reverse = mid.reverse ++ pre.reverse := by
      rw [he, List.reverse_append]
    have hmidall : ∀ x ∈ mid.reverse, (x == 1) = true := by
      intro x hx
      rw [List.mem_reverse] at hx
      simpa using hall x hx
    unfold trailingOnes
    rw [hrev, takeWhile_all_append _ _ _ hmidall]
    simp [hlen.symm]

/-- C6: for a 0/1 hit sequence in chronological order,
`_calculate_streaks` returns the trailing hit-run length as
`current_streak`, the longest hit-run length as `best_streak` and the
longest miss-run length as `worst_streak` (runs stated as `replicate`
blocks); and the sequence hit, hit, miss, hit yields
`current_streak = 1`, `best_streak = 2`, `worst_streak = 1`. -/
theorem calculate_streaks_spec (l : List Nat) (h01 : ∀ r ∈ l, r = 0 ∨ r = 1) :
    ((∃ pre, l = pre ++ List.replicate (calculate_streaks l).1 1)
      ∧ ∀ n, (∃ pre, l = pre ++ List.replicate n 1) → n ≤ (calculate_streaks l).1)
    ∧ ((∃ pre post, l = pre ++ List.replicate (calculate_streaks l).2.1 1 ++ post)
      ∧ ∀ n, (∃ pre post, l = pre ++ List.replicate n 1 ++ post) →
          n ≤ (calculate_streaks l).2.1)
    ∧ ((∃ pre post, l = pre ++ List.replicate (calculate_streaks l).2.2 0 ++ post)
      ∧ ∀ n, (∃ pre post, l = pre ++ List.replicate n 0 ++ post) →
          n ≤ (calculate_streaks l).2.2)
    ∧ calculate_streaks [1, 1, 0, 1] = (1, 2, 1) := by
  have hcs : calculate_streaks l =
      (trailingOnes l, (l.foldl streakStep (0, 0, 0, 0)).1,
        (l.foldl streakStep (0, 0, 0, 0)).2.1) := by
    unfold calculate_streaks
    split
    · rename_i h; subst h; rfl
    · rfl
  obtain ⟨-, -, hb1, hb0⟩ := streak_foldl_spec l
  have htr := maxTrail_trailingOnes l
  rw [hcs]
  refine ⟨⟨?_, ?_⟩, ⟨?_, ?_⟩, ⟨?_, ?_⟩, by decide⟩
  · obtain ⟨pre, mid, he, hlen, hall⟩ := htr.1
    have hmid : mid = List.replicate (trailingOnes l) 1 :=
      List.eq_replicate_iff.mpr ⟨hlen, hall⟩
    exact ⟨pre, he.trans (by rw [hmid])⟩
  · rintro n ⟨pre, hpre⟩
    exact htr.2 n ⟨pre, List.replicate n 1, hpre, List.length_replicate _ _,
      fun x hx => List.eq_of_mem_replicate hx⟩
  · obtain ⟨pre, mid, post, he, hlen, hall⟩ := hb1.1
    have hmid : mid = List.replicate ((l.foldl streakStep (0, 0, 0, 0)).1) 1 :=
      List.eq_replicate_iff.mpr ⟨hlen, hall⟩
    exact ⟨pre, post, he.trans (by rw [hmid])⟩
  · rintro n ⟨pre, post, hpp⟩
    exact hb1.2 n ⟨pre, List.replicate n 1, post, hpp, List.length_replicate _ _,
      fun x hx => List.eq_of_mem_replicate hx⟩
  · obtain ⟨pre, mid, post, he, hlen, hall⟩ := hb0.1
    have hzero : ∀ x ∈ mid, x = 0 := by
      intro x hx
      have hxl : x ∈ l := by
        rw [he]
        exact List.mem_append_left _ (List.mem_append_right _ hx)
      rcases h01 x hxl with h0 | h1
      · exact h0
      · exact absurd h1 (hall x hx)
    have hmid : mid = List.replicate ((l.foldl streakStep (0, 0, 0, 0)).2.1) 0 :=
      List.eq_replicate_iff.mpr ⟨hlen, hzero⟩
    exact ⟨pre, post, he.trans (by rw [hmid])⟩
  · rintro n ⟨pre, post, hpp⟩
    refine hb0.2 n ⟨pre, List.replicate n 0, post, hpp, List.length_replicate _ _, ?_⟩
    intro x hx
    rw [List.eq_of_mem_replicate hx]
    omega

/-- Witness for C6 at the spec's own test sequence hit, hit, miss, hit. -/
theorem calculate_streaks_spec_witness :
    ((∃ pre, [1, 1, 0, 1] = pre ++ List.replicate (calculate_streaks [1, 1, 0, 1]).1 1)
      ∧ ∀ n, (∃ pre, [1, 1, 0, 1] = pre ++ List.replicate n 1) →
          n ≤ (calculate_streaks [1, 1, 0, 1]).1)
    ∧ ((∃ pre post,
          [1, 1, 0, 1] = pre ++ List.replicate (calculate_streaks [1, 1, 0, 1]).2.1 1 ++ post)
      ∧ ∀ n, (∃ pre post, [1, 1, 0, 1] = pre ++ List.replicate n 1 ++ post) →
          n ≤ (calculate_streaks [1, 1, 0, 1]).2.1)
    ∧ ((∃ pre post,
          [1, 1, 0, 1] = pre ++ List.replicate (calculate_streaks [1, 1, 0, 1]).2.2 0 ++ post)
      ∧ ∀ n, (∃ pre post, [1, 1, 0, 1] = pre ++ List.replicate n 0 ++ post) →
          n ≤ (calculate_streaks [1, 1, 0, 1]).2.2)
    ∧ calculate_streaks [1, 1, 0, 1] = (1, 2, 1) :=
  calculate_streaks_spec [1, 1, 0, 1] (by decide)

end MongoMotor
